import Mathlib

/-!
Verification of the Safe transaction lifecycle logic of localsafe.eth.

The development embeds, faithfully to the TypeScript source:
  - a concrete Keccak-256 (the hash underlying `ethers.TypedDataEncoder`
    and `ethers.hashMessage`), written over `Nat` with explicit 64-bit masking;
  - the EIP-712 structured-data encoder as instantiated by the app
    (`SafeTx` and `SafeMessage` structs, domains with optional `chainId`);
  - the transaction-details client logic (`TxDetailsClient`): EIP-712 hash
    display effect, manual signature addition, export / share-link encoding,
    broadcast enablement and broadcast state handling;
  - the WalletConnect signing client (`WalletConnectSignClient`): the
    per-method inner message hashing and the SafeMessage digest.
-/

namespace LocalSafe

/-! ## Keccak-256 over `Nat` (FIPS 202 permutation, original 0x01 padding) -/

/-- 64-bit mask. -/
def mask64 : Nat := 18446744073709551615

/-- Left-rotation of a 64-bit word represented as `Nat`. -/
def rotl64 (x n : Nat) : Nat :=
  ((x <<< n) ||| (x >>> (64 - n))) &&& mask64

/-- Keccak-f[1600] round constants (decimal). -/
def keccakRC : List Nat :=
  [1, 32898, 9223372036854808714,
   9223372039002292224, 32907, 2147483649,
   9223372039002292353, 9223372036854808585, 138,
   136, 2147516425, 2147483658,
   2147516555, 9223372036854775947, 9223372036854808713,
   9223372036854808579, 9223372036854808578, 9223372036854775936,
   32778, 9223372039002259466, 9223372039002292353,
   9223372036854808704, 2147483649, 9223372039002292232]

/-- For each destination lane of the combined rho-pi step, the source
lane index paired with that source lane's rho rotation offset. -/
def piRho : List (Nat × Nat) :=
  [(0, 0), (6, 44), (12, 43), (18, 21), (24, 14),
   (3, 28), (9, 20), (10, 3), (16, 45), (22, 61),
   (1, 1), (7, 6), (13, 25), (19, 8), (20, 18),
   (4, 27), (5, 36), (11, 10), (17, 15), (23, 56),
   (2, 62), (8, 55), (14, 39), (15, 41), (21, 2)]

/-- Theta step of Keccak-f. -/
def keccakTheta (st : List Nat) : List Nat :=
  let C := (List.range 5).map fun x =>
    st.getD x 0 ^^^ st.getD (x + 5) 0 ^^^ st.getD (x + 10) 0 ^^^
      st.getD (x + 15) 0 ^^^ st.getD (x + 20) 0
  let D := (List.range 5).map fun x =>
    C.getD ((x + 4) % 5) 0 ^^^ rotl64 (C.getD ((x + 1) % 5) 0) 1
  (List.range 25).map fun i => st.getD i 0 ^^^ D.getD (i % 5) 0

/-- Combined rho and pi steps. -/
def keccakRhoPi (st : List Nat) : List Nat :=
  piRho.map fun p => rotl64 (st.getD p.1 0) p.2

/-- Chi step; complement is xor with the 64-bit mask. -/
def keccakChi (st : List Nat) : List Nat :=
  (List.range 25).map fun j =>
    let x := j % 5
    let y := j / 5
    st.getD j 0 ^^^ ((st.getD ((x + 1) % 5 + 5 * y) 0 ^^^ mask64) &&& st.getD ((x + 2) % 5 + 5 * y) 0)

/-- Iota step: xor the round constant into lane 0. -/
def keccakIota (st : List Nat) (rc : Nat) : List Nat :=
  match st with
  | [] => []
  | a :: rest => (a ^^^ rc) :: rest

/-- One full Keccak-f round. -/
def keccakRound (st : List Nat) (rc : Nat) : List Nat :=
  keccakIota (keccakChi (keccakRhoPi (keccakTheta st))) rc

/-- The 24-round Keccak-f[1600] permutation. -/
def keccakF (st : List Nat) : List Nat :=
  keccakRC.foldl keccakRound st

/-- Multi-rate padding with the original Keccak 0x01 domain byte (rate 136). -/
def keccakPad (bs : List Nat) : List Nat :=
  let padLen := 136 - bs.length % 136
  if padLen == 1 then bs ++ [0x81]
  else bs ++ 0x01 :: List.replicate (padLen - 2) 0 ++ [0x80]

/-- Assemble lane `j` (little-endian 64-bit) from a 136-byte block. -/
def laneFromBytes (block : List Nat) (j : Nat) : Nat :=
  (List.range 8).foldl (fun acc k => acc ||| (block.getD (8 * j + k) 0 <<< (8 * k))) 0

/-- Xor one rate block into the state and permute. -/
def absorbBlock (st block : List Nat) : List Nat :=
  keccakF ((List.range 25).map fun j => st.getD j 0 ^^^ laneFromBytes block j)

/-- Absorb a padded message (length a multiple of 136). -/
def absorbAll (padded : List Nat) : List Nat :=
  (List.range (padded.length / 136)).foldl
    (fun st b => absorbBlock st ((padded.drop (136 * b)).take 136)) (List.replicate 25 0)

/-- The eight little-endian bytes of a 64-bit lane. -/
def le64Bytes (l : Nat) : List Nat :=
  [l &&& 255, (l >>> 8) &&& 255, (l >>> 16) &&& 255, (l >>> 24) &&& 255,
   (l >>> 32) &&& 255, (l >>> 40) &&& 255, (l >>> 48) &&& 255, (l >>> 56) &&& 255]

/-- Keccak-256: absorb with rate 136, squeeze the first 32 bytes. -/
def keccak256 (bs : List Nat) : List Nat :=
  let st := absorbAll (keccakPad bs)
  le64Bytes (st.getD 0 0) ++ le64Bytes (st.getD 1 0) ++
    le64Bytes (st.getD 2 0) ++ le64Bytes (st.getD 3 0)

theorem le64Bytes_length (l : Nat) : (le64Bytes l).length = 8 := rfl

theorem keccak256_length (bs : List Nat) : (keccak256 bs).length = 32 := by
  simp [keccak256, le64Bytes]

/-! ## String and byte utilities

The app handles addresses, calldata and signatures as 0x-prefixed hex
strings and version strings as plain ASCII, so byte conversions below
are the ASCII/UTF-8 conversions ethers applies to them. -/

/-- UTF-8 bytes of a string; the app only feeds ASCII strings to hashing. -/
def strBytes (s : String) : List Nat :=
  s.toList.map Char.toNat

/-- JavaScript lexicographic string comparison (by code units), as a Bool. -/
def jsLtChars : List Char → List Char → Bool
  | [], [] => false
  | [], _ :: _ => true
  | _ :: _, [] => false
  | a :: as, b :: bs =>
    if a.toNat < b.toNat then true
    else if b.toNat < a.toNat then false
    else jsLtChars as bs

/-- JavaScript `a >= b` on strings: the negation of lexicographic less-than. -/
def jsStringGe (a b : String) : Bool :=
  !(jsLtChars a.toList b.toList)

/-- JavaScript `String.prototype.toLowerCase` restricted to ASCII,
which is all the app ever lowercases (hex addresses). -/
def jsToLower (s : String) : String :=
  String.mk (s.toList.map Char.toLower)

/-- Value of one hex digit; 0 for any non-hex character. -/
def hexDigitVal (c : Char) : Nat :=
  let n := c.toNat
  if 48 ≤ n && n ≤ 57 then n - 48
  else if 97 ≤ n && n ≤ 102 then n - 87
  else if 65 ≤ n && n ≤ 70 then n - 55
  else 0

/-- Is this character a hex digit (`[a-fA-F0-9]`)? -/
def isHexDigitCh (c : Char) : Bool :=
  let n := c.toNat
  (48 ≤ n && n ≤ 57) || (97 ≤ n && n ≤ 102) || (65 ≤ n && n ≤ 70)

/-- Bytes of a run of hex characters, two characters per byte. -/
def hexPairBytes : List Char → List Nat
  | c1 :: c2 :: rest => (16 * hexDigitVal c1 + hexDigitVal c2) :: hexPairBytes rest
  | _ => []

/-- Bytes of a 0x-prefixed hex string, as ethers decodes it. -/
def hexToBytes (s : String) : List Nat :=
  hexPairBytes (s.toList.drop 2)

/-- Big-endian natural number from bytes. -/
def bytesToNat (bs : List Nat) : Nat :=
  bs.foldl (fun acc b => acc * 256 + b) 0

/-- RegExp `^0x[a-fA-F0-9]{40}$` used by `handleAddSignature` for addresses. -/
def matchesAddressShape (s : String) : Bool :=
  match s.toList with
  | '0' :: 'x' :: rest => rest.length == 40 && rest.all isHexDigitCh
  | _ => false

/-- RegExp `^0x[a-fA-F0-9]+$` used by `handleAddSignature` for signature data. -/
def matchesSignatureShape (s : String) : Bool :=
  match s.toList with
  | '0' :: 'x' :: rest => !rest.isEmpty && rest.all isHexDigitCh
  | _ => false

/-! ## EIP-712 encoding as `ethers.TypedDataEncoder` computes it

The app calls `ethers.TypedDataEncoder.hashDomain`, `.hashStruct` and
`.hash` on domains of shape `{ chainId?, verifyingContract }` and on the
`SafeTx` and `SafeMessage` structs, plus on dapp-supplied typed data.
The encoding below is the standard EIP-712 one these calls perform. -/

/-- An EIP-712 domain as the app constructs it: an optional `chainId`
and a `verifyingContract` hex-string address. -/
structure Eip712Domain where
  chainId : Option Nat
  verifyingContract : String
  deriving Repr, DecidableEq

/-- A 32-byte big-endian word for a `uint256` value. -/
def u256Bytes (n : Nat) : List Nat :=
  (List.range 32).map fun i => (n >>> (8 * (31 - i))) &&& 255

/-- ABI word for an address given as a 0x hex string (left-padded to 32 bytes). -/
def addressWord (s : String) : List Nat :=
  u256Bytes (bytesToNat (hexToBytes s))

/-- The EIP712Domain type string: `chainId` appears only when present,
`verifyingContract` always, in the canonical field order ethers uses. -/
def domainTypeString (d : Eip712Domain) : String :=
  match d.chainId with
  | some _ => "EIP712Domain(uint256 chainId,address verifyingContract)"
  | none => "EIP712Domain(address verifyingContract)"

/-- `TypedDataEncoder.hashDomain`: keccak of the domain type hash followed
by the encodings of the present fields. -/
def hashDomain (d : Eip712Domain) : List Nat :=
  let fieldEnc :=
    match d.chainId with
    | some c => u256Bytes c ++ addressWord d.verifyingContract
    | none => addressWord d.verifyingContract
  keccak256 (keccak256 (strBytes (domainTypeString d)) ++ fieldEnc)

/-- The final EIP-712 digest: `keccak256(0x1901 ‖ domainHash ‖ structHash)`. -/
def eip712Digest (domainHash structHash : List Nat) : List Nat :=
  keccak256 (0x19 :: 0x01 :: (domainHash ++ structHash))

/-! ## Data model (protocol-kit types as the app stores them) -/

/-- `SafeTransactionData` of `@safe-global/protocol-kit`: addresses and
calldata as 0x hex strings, the uint256 gas/value fields as naturals
(ethers parses the stored decimal strings to bigint before encoding),
`operation` 0 (Call) or 1 (DelegateCall). -/
structure SafeTransactionData where
  «to» : String
  value : Nat
  data : String
  operation : Nat
  safeTxGas : Nat
  baseGas : Nat
  gasPrice : Nat
  gasToken : String
  refundReceiver : String
  nonce : Nat
  deriving Repr, DecidableEq

/-- `EthSafeSignature`: claimed signer address, signature bytes as hex,
and the contract-signature flag. -/
structure EthSafeSignature where
  signer : String
  data : String
  isContractSignature : Bool
  deriving Repr, DecidableEq

/-- `EthSafeTransaction`: the canonical data plus the signatures Map,
modelled as an insertion-ordered association list. Protocol-kit keys
the Map by the lower-cased signer address. -/
structure EthSafeTransaction where
  data : SafeTransactionData
  signatures : List (String × EthSafeSignature)
  deriving Repr, DecidableEq

/-- `Map.has` on the signatures association list. -/
def mapHas (m : List (String × EthSafeSignature)) (k : String) : Bool :=
  m.any fun e => e.1 == k

/-- `Map.get` on the signatures association list. -/
def mapGet (m : List (String × EthSafeSignature)) (k : String) : Option EthSafeSignature :=
  (m.find? fun e => e.1 == k).map Prod.snd

/-- `Map.set`: replace in place when the key exists, append otherwise,
preserving insertion order. -/
def mapSet (m : List (String × EthSafeSignature)) (k : String) (v : EthSafeSignature) :
    List (String × EthSafeSignature) :=
  if mapHas m k then m.map (fun e => if e.1 == k then (k, v) else e) else m ++ [(k, v)]

/-- `Map.values()` in insertion order. -/
def mapValues (m : List (String × EthSafeSignature)) : List EthSafeSignature :=
  m.map Prod.snd

/-- `EthSafeTransaction.addSignature` of protocol-kit:
`signatures.set(signature.signer.toLowerCase(), signature)`. -/
def addSignature (tx : EthSafeTransaction) (sig : EthSafeSignature) : EthSafeTransaction :=
  { tx with signatures := mapSet tx.signatures (jsToLower sig.signer) sig }

/-- `SafeInfo` snapshot consumed by the clients. -/
structure SafeInfo where
  address : String
  owners : List String
  threshold : Nat
  nonce : Nat
  version : String
  deriving Repr, DecidableEq

/-! ## TxDetailsClient: the EIP-712 hash effect (part_003 lines 137-188) -/

/-- The three hashes the transaction-details page displays. -/
structure Eip712Data where
  domainHash : List Nat
  messageHash : List Nat
  eip712Hash : List Nat
  deriving Repr, DecidableEq

/-- The `SafeTx` type string with its fixed field order, exactly the
`types` object built by TxDetailsClient. -/
def safeTxTypeString : String :=
  "SafeTx(address to,uint256 value,bytes data,uint8 operation,uint256 safeTxGas,uint256 baseGas,uint256 gasPrice,address gasToken,address refundReceiver,uint256 nonce)"

/-- `TypedDataEncoder.hashStruct("SafeTx", types, message)`: type hash
followed by the ten field words in declaration order; the dynamic
`bytes data` field contributes the keccak of its bytes. -/
def hashSafeTxStruct (d : SafeTransactionData) : List Nat :=
  keccak256 (keccak256 (strBytes safeTxTypeString) ++
    addressWord d.to ++ u256Bytes d.value ++ keccak256 (hexToBytes d.data) ++
    u256Bytes d.operation ++ u256Bytes d.safeTxGas ++ u256Bytes d.baseGas ++
    u256Bytes d.gasPrice ++ addressWord d.gasToken ++ addressWord d.refundReceiver ++
    u256Bytes d.nonce)

/-- The domain TxDetailsClient builds for the SafeTx hash:
`{ chainId: chain.id, verifyingContract: safeAddress }` — note that no
version check guards the `chainId` field here. -/
def txDetailsDomain (chainId : Nat) (safeAddress : String) : Eip712Domain :=
  { chainId := some chainId, verifyingContract := safeAddress }

/-- The EIP-712 hash effect of TxDetailsClient: given the loaded
transaction, the SafeInfo snapshot, the connected chain and the safe
address it computes `domainHash`, `messageHash` and `eip712Hash`.
`safeInfo` is required to be present (the effect returns early when it
is null) but none of its fields enter the hashes. -/
def computeTxEip712Data (safeTx : EthSafeTransaction) (_safeInfo : SafeInfo)
    (chainId : Nat) (safeAddress : String) : Eip712Data :=
  let domain := txDetailsDomain chainId safeAddress
  let domainHash := hashDomain domain
  let messageHash := hashSafeTxStruct safeTx.data
  { domainHash := domainHash
    messageHash := messageHash
    eip712Hash := eip712Digest domainHash messageHash }

/-! ## WalletConnectSignClient: SafeMessage hashing (part_002 lines 77-159) -/

/-- `ethers.hashMessage` on a string: EIP-191 hash of the UTF-8 bytes of
the literal string (a 0x hex string is NOT decoded first, matching the
comment in the source: the Safe SDK applies EIP-191 to the literal hex
string). The prefix is `"\x19Ethereum Signed Message:\n" + length`. -/
def ethersHashMessage (message : String) : List Nat :=
  let msgBytes := strBytes message
  keccak256 (25 :: strBytes "Ethereum Signed Message:\n" ++
    strBytes (Nat.repr msgBytes.length) ++ msgBytes)

/-- One field of a dapp-supplied EIP-712 struct: declared type name and
its value, restricted to the atomic ABI kinds. -/
inductive TypedField where
  | uintField (name : String) (bits : Nat) (value : Nat)
  | addressField (name : String) (value : String)
  | bytesField (name : String) (hexValue : String)
  | stringField (name : String) (value : String)
  | boolField (name : String) (value : Bool)
  deriving Repr, DecidableEq

/-- The declared `type name` fragment of a field for the type string. -/
def TypedField.decl : TypedField → String
  | .uintField n bits _ => "uint" ++ Nat.repr bits ++ " " ++ n
  | .addressField n _ => "address " ++ n
  | .bytesField n _ => "bytes " ++ n
  | .stringField n _ => "string " ++ n
  | .boolField n _ => "bool " ++ n

/-- The 32-byte ABI word a field contributes to `encodeData`. -/
def TypedField.word : TypedField → List Nat
  | .uintField _ _ v => u256Bytes v
  | .addressField _ v => addressWord v
  | .bytesField _ v => keccak256 (hexToBytes v)
  | .stringField _ v => keccak256 (strBytes v)
  | .boolField _ v => u256Bytes (if v then 1 else 0)

/-- Dapp-supplied typed data as passed to `eth_signTypedData`: a domain,
a primary struct name and its (flat) fields. -/
structure TypedData where
  domain : Eip712Domain
  primaryType : String
  fields : List TypedField
  deriving Repr, DecidableEq

/-- `hashStruct` of a flat struct: keccak of the type hash followed by
the field words in declaration order. -/
def hashStructGeneric (primaryType : String) (fields : List TypedField) : List Nat :=
  let typeStr := primaryType ++ "(" ++ String.intercalate "," (fields.map TypedField.decl) ++ ")"
  keccak256 (keccak256 (strBytes typeStr) ++ (fields.map TypedField.word).flatten)

/-- `ethers.TypedDataEncoder.hash(domain, types, message)` on the
dapp-supplied typed data. -/
def hashTypedData (td : TypedData) : List Nat :=
  eip712Digest (hashDomain td.domain) (hashStructGeneric td.primaryType td.fields)

/-- A WalletConnect signing request, tagged by method with the parameter
shape each method carries (`personal_sign` params are `[message, address]`,
`eth_sign` and typed-data params are `[address, payload]`). -/
inductive WcSignRequest where
  | personalSign (message : String) (address : String)
  | ethSign (address : String) (message : String)
  | ethSignTypedData (address : String) (typedData : TypedData)
  | ethSignTypedDataV4 (address : String) (typedData : TypedData)
  | unknownMethod (method : String)
  deriving Repr, DecidableEq

/-- The inner `SafeMessage.message` value the client computes per method:
the EIP-191 hash of the literal message for `personal_sign`/`eth_sign`,
the EIP-712 hash of the supplied typed data for typed-data signing,
and nothing for unknown methods (the effect bails out). -/
def safeMessageInner : WcSignRequest → Option (List Nat)
  | .personalSign message _ => some (ethersHashMessage message)
  | .ethSign _ message => some (ethersHashMessage message)
  | .ethSignTypedData _ td => some (hashTypedData td)
  | .ethSignTypedDataV4 _ td => some (hashTypedData td)
  | .unknownMethod _ => none

/-- `safeInfo.version || "1.4.1"`: the JS default kicks in for the empty
(falsy) string. -/
def defaultedVersion (version : String) : String :=
  if version == "" then "1.4.1" else version

/-- The `includeChainId` branch: `safeVersion >= "1.3.0"` by JavaScript
string comparison. -/
def includeChainId (version : String) : Bool :=
  jsStringGe (defaultedVersion version) "1.3.0"

/-- The SafeMessage EIP-712 domain: `chainId` is present exactly when
`includeChainId` holds, `verifyingContract` is always the safe address. -/
def safeMessageDomain (version : String) (chainId : Nat) (safeAddress : String) : Eip712Domain :=
  if includeChainId version then
    { chainId := some chainId, verifyingContract := safeAddress }
  else
    { chainId := none, verifyingContract := safeAddress }

/-- `hashStruct("SafeMessage", types, message)`: the single `bytes message`
field holds the inner hash, so its word is the keccak of those 32 bytes. -/
def hashSafeMessageStruct (innerHash : List Nat) : List Nat :=
  keccak256 (keccak256 (strBytes "SafeMessage(bytes message)") ++ keccak256 innerHash)

/-- The SafeMessage display data: the inner hash plus the three digests. -/
structure SafeMessageEip712Data where
  safeMessage : List Nat
  eip712Hash : List Nat
  domainHash : List Nat
  messageHash : List Nat
  deriving Repr, DecidableEq

/-- The EIP-712 hash effect of WalletConnectSignClient: extract and hash
the inner message per method, build the version-dependent domain, wrap
the inner hash in the `SafeMessage` struct and hash the whole. Returns
none exactly when the method is unknown. -/
def computeSafeMessageEip712Data (req : WcSignRequest) (safeInfo : SafeInfo)
    (chainId : Nat) (safeAddress : String) : Option SafeMessageEip712Data :=
  match safeMessageInner req with
  | none => none
  | some inner =>
    let domain := safeMessageDomain safeInfo.version chainId safeAddress
    let domainHash := hashDomain domain
    let messageHash := hashSafeMessageStruct inner
    some { safeMessage := inner
           eip712Hash := eip712Digest domainHash messageHash
           domainHash := domainHash
           messageHash := messageHash }

/-! ## TxDetailsClient handlers (part_003) -/

/-- `hasSignedThisTx`: `safeTx.signatures?.has(connectedAddress.toLowerCase())`. -/
def hasSignedThisTx (safeTx : EthSafeTransaction) (connectedAddress : String) : Bool :=
  mapHas safeTx.signatures (jsToLower connectedAddress)

/-- The signer lookup of `handleShareSignature`: find the signature whose
signer equals the connected address after lower-casing both sides. -/
def findUserSignature (safeTx : EthSafeTransaction) (connectedAddress : String) :
    Option EthSafeSignature :=
  (mapValues safeTx.signatures).find? fun sig =>
    jsToLower sig.signer == jsToLower connectedAddress

/-- `handleAddSignature`: the manual Add Signature flow. Inputs are the
user-typed signer address and signature hex. Validation is the three
checks of the source, in order: non-empty inputs, the address RegExp,
the signature-data RegExp. On success it constructs
`new EthSafeSignature(signerAddress, signatureData, false)` and calls
`safeTx.addSignature` — no signature recovery happens anywhere. -/
def handleAddSignature (safeTx : EthSafeTransaction)
    (signerAddress signatureData : String) : Except String EthSafeTransaction :=
  if signerAddress == "" || signatureData == "" then
    Except.error "Signer address and signature data are required"
  else if !matchesAddressShape signerAddress then
    Except.error "Invalid signer address format"
  else if !matchesSignatureShape signatureData then
    Except.error "Invalid signature data format"
  else
    Except.ok (addSignature safeTx
      { signer := signerAddress, data := signatureData, isContractSignature := false })

/-! ## Wire encoding: export, share links and import (part_003 + codec) -/

/-- A signature on the wire: exactly the three fields the export mappers
emit (`{ signer, data, isContractSignature }`). -/
structure WireSignature where
  signer : String
  data : String
  isContractSignature : Bool
  deriving Repr, DecidableEq

/-- A transaction on the wire: `{ data, signatures }`. -/
structure WireTransaction where
  data : SafeTransactionData
  signatures : List WireSignature
  deriving Repr, DecidableEq

/-- The JSON envelope of a transaction file: the single form
`{ tx: WireTransaction }` or the batch form `{ transactions: [...] }`. -/
inductive WireFile where
  | single (tx : WireTransaction)
  | batch (txs : List WireTransaction)
  deriving Repr, DecidableEq

/-- Is the envelope in the batch form? -/
def WireFile.isBatch : WireFile → Bool
  | .single _ => false
  | .batch _ => true

/-- The signature mapping shared by `handleExportSingle`, `handleShareLink`
and `handleShareSignature`: `Array.from(signatures.values()).map(sig =>
({signer, data, isContractSignature}))` — a per-element projection in
Map insertion order. -/
def exportSignatures (signatures : List (String × EthSafeSignature)) : List WireSignature :=
  (mapValues signatures).map fun sig =>
    { signer := sig.signer, data := sig.data, isContractSignature := sig.isContractSignature }

/-- `handleExportSingle`: the JSON written to the downloaded file is
`{ tx: { data, signatures } }` — the single form. -/
def handleExportSingle (safeTx : EthSafeTransaction) : WireFile :=
  .single { data := safeTx.data, signatures := exportSignatures safeTx.signatures }

/-- `handleShareLink`: the base64 payload of `importTx` is
`JSON.stringify({ tx: txData })` — also the single form. -/
def handleShareLink (safeTx : EthSafeTransaction) : WireFile :=
  .single { data := safeTx.data, signatures := exportSignatures safeTx.signatures }

/-- Modelled from the spec: the Codec `decode`, whose implementation
(the dashboard import handler / SafeTxProvider) is not among the source
files here; per the spec it accepts both the single wire form
`{ tx: ... }` and the batch form `{ transactions: [...] }`, producing
one or many transactions. -/
def decodeWireFile : WireFile → List WireTransaction
  | .single tx => [tx]
  | .batch txs => txs

/-- Modelled from the spec: the dashboard bulk export (its handler is not
among the source files here; the dashboard export test asserts the file
parses as `{ transactions: [...] }`), emitting the batch form. -/
def dashboardExportTxs (txs : List WireTransaction) : WireFile :=
  .batch txs

/-! ## Broadcast enablement and broadcast state (part_003) -/

/-- The broadcast button `disabled` expression:
`!(safeTx && safeInfo && safeTx.signatures?.size >= safeInfo.threshold) || broadcasting`. -/
def broadcastDisabled (safeTx : Option EthSafeTransaction) (safeInfo : Option SafeInfo)
    (broadcasting : Bool) : Bool :=
  !(match safeTx, safeInfo with
    | some tx, some info => decide (tx.signatures.length ≥ info.threshold)
    | _, _ => false) || broadcasting

/-- The executability predicate the button enforces:
`tx.signatures.size >= safeInfo.threshold`. -/
def isExecutable (tx : EthSafeTransaction) (info : SafeInfo) : Bool :=
  decide (tx.signatures.length ≥ info.threshold)

/-- The page state touched by `handleBroadcast` and the broadcast modal,
together with the pending transaction set the context stores for this
(safe, chain) pair. -/
structure TxDetailsState where
  pending : List EthSafeTransaction
  safeTx : Option EthSafeTransaction
  broadcastHash : Option String
  broadcastError : Option String
  showModal : Bool
  broadcasting : Bool
  deriving Repr, DecidableEq

/-- Outcome of one `broadcastSafeTransaction` call: a result object whose
`hash` field may be empty, or a thrown error. -/
inductive BroadcastOutcome where
  | success (hash : String)
  | failure (message : String)
  deriving Repr, DecidableEq

/-- `handleBroadcast`, given the outcome of the awaited broadcast call:
on success it stores `txHash || null` and opens the modal; on failure it
stores the error message and opens the modal. Neither branch touches the
pending set nor the transaction (and its signatures), and the function
returns without further broadcast attempts. When no transaction is
loaded it returns immediately. -/
def handleBroadcast (outcome : BroadcastOutcome) (s : TxDetailsState) : TxDetailsState :=
  match s.safeTx with
  | none => s
  | some _ =>
    match outcome with
    | .success h =>
      { s with broadcastHash := if h == "" then none else some h
               broadcastError := none
               showModal := true
               broadcasting := false }
    | .failure e =>
      { s with broadcastError := some e
               showModal := true
               broadcasting := false }

/-- `handleBroadcast` consuming one outcome from the queue of outcomes the
external broadcaster would produce: exactly one attempt is made per call
(the core never auto-retries a failed broadcast). -/
def handleBroadcastSeq (outcomes : List BroadcastOutcome) (s : TxDetailsState) :
    TxDetailsState × List BroadcastOutcome :=
  match s.safeTx, outcomes with
  | some _, o :: rest => (handleBroadcast o s, rest)
  | _, _ => (s, outcomes)

/-- Modelled from the spec: the BroadcastModal success action (its
component is not among the source files here); per the spec a broadcast
either yields a transaction hash or the transaction remains Executable,
so the success path is reachable only with a stored hash and no error. -/
def modalSuccessAvailable (s : TxDetailsState) : Bool :=
  s.showModal && s.broadcastHash.isSome && s.broadcastError.isNone

/-- Modelled from the spec: `removeTransaction` of SafeTxProvider (not
among the source files here) invoked by the modal `onSuccess`; it removes
the broadcast transaction from the pending set and closes the modal. -/
def modalOnSuccess (s : TxDetailsState) : TxDetailsState :=
  { s with pending := match s.safeTx with
             | some tx => s.pending.filter (fun t => !(t == tx))
             | none => s.pending
           showModal := false }

/-! ## Shared demonstration values -/

/-- The zero address sentinel. -/
def zeroAddress : String := "0x0000000000000000000000000000000000000000"

/-- A concrete recipient address. -/
def demoRecipient : String := "0x2222222222222222222222222222222222222222"

/-- A concrete safe address. -/
def demoSafeAddress : String := "0x5afe5afe5afe5afe5afe5afe5afe5afe5afe5afe"

/-- A concrete canonical transaction payload (nonce-4 call). -/
def demoTxData : SafeTransactionData :=
  { «to» := demoRecipient, value := 0, data := "0x", operation := 0,
    safeTxGas := 0, baseGas := 0, gasPrice := 0,
    gasToken := zeroAddress, refundReceiver := zeroAddress, nonce := 4 }

/-- The demo transaction with no signatures yet. -/
def demoTx : EthSafeTransaction := { data := demoTxData, signatures := [] }

/-- A first demo owner signature. -/
def demoSigA : EthSafeSignature :=
  { signer := "0xF39FD6E51AAD88F6F4CE6AB8827279CFFFB92266", data := "0xaaaa", isContractSignature := false }

/-- A second demo owner signature, with an address that sorts before the
first one. -/
def demoSigB : EthSafeSignature :=
  { signer := "0x70997970c51812dc3a010c7d01b50e0d17dc79c8", data := "0xbbbb", isContractSignature := false }

/-- The demo transaction carrying the two signatures in insertion order
A then B (not address order). -/
def demoTxSigned : EthSafeTransaction :=
  { data := demoTxData,
    signatures := [(jsToLower demoSigA.signer, demoSigA), (jsToLower demoSigB.signer, demoSigB)] }

/-- A demo SafeInfo snapshot: three owners, threshold two, version 1.4.1. -/
def demoInfo : SafeInfo :=
  { address := demoSafeAddress,
    owners := ["0xF39FD6E51AAD88F6F4CE6AB8827279CFFFB92266",
               "0x70997970c51812dc3a010c7d01b50e0d17dc79c8",
               "0x3C44CdDdB6a900fa2b585dd299e03d12FA4293BC"],
    threshold := 2, nonce := 4, version := "1.4.1" }

/-- The demo SafeInfo with a pre-1.3.0 Safe version. -/
def demoInfoOld : SafeInfo := { demoInfo with version := "1.0.0" }

/-! ## C1: the transaction hash is pure, deterministic, signature-independent -/

/-- C1: computing the SafeTx EIP-712 hashes twice on identical inputs
yields identical values; the hashes do not depend on the attached
signatures (nor on any SafeInfo field); and each of domainHash,
messageHash and safeTxHash is a 32-byte digest. -/
theorem safeTxHash_deterministic_signature_independent
    (d : SafeTransactionData) (info info₂ : SafeInfo) (chainId : Nat) (addr : String)
    (sigs sigs₂ : List (String × EthSafeSignature)) :
    computeTxEip712Data ⟨d, sigs⟩ info chainId addr
        = computeTxEip712Data ⟨d, sigs⟩ info chainId addr
    ∧ computeTxEip712Data ⟨d, sigs⟩ info chainId addr
        = computeTxEip712Data ⟨d, sigs₂⟩ info₂ chainId addr
    ∧ (computeTxEip712Data ⟨d, sigs⟩ info chainId addr).domainHash.length = 32
    ∧ (computeTxEip712Data ⟨d, sigs⟩ info chainId addr).messageHash.length = 32
    ∧ (computeTxEip712Data ⟨d, sigs⟩ info chainId addr).eip712Hash.length = 32 := by
  refine ⟨rfl, rfl, ?_, ?_, ?_⟩
  · simp [computeTxEip712Data, hashDomain, keccak256_length]
  · simp [computeTxEip712Data, hashSafeTxStruct, keccak256_length]
  · simp [computeTxEip712Data, eip712Digest, keccak256_length]

/-! ## C2: chainId inclusion in the EIP-712 domain -/

/-- C2 counterexample: for a Safe of version 1.0.0 — below 1.3.0 under
the comparison the code uses — the SafeTx hash of TxDetailsClient is
still computed over a domain that includes chainId, so the claimed
domain rule does not hold for every structured-data hash. -/
theorem safeTx_domain_includes_chainId_below_130 :
    includeChainId "1.0.0" = false
    ∧ (txDetailsDomain 31337 demoSafeAddress).chainId = some 31337
    ∧ (computeTxEip712Data demoTx demoInfoOld 31337 demoSafeAddress).domainHash
        = hashDomain { chainId := some 31337, verifyingContract := demoSafeAddress } := by
  exact ⟨by decide, rfl, rfl⟩

/-- C2 (amended): the SafeMessage hash's domain includes chainId exactly
when the (defaulted) safeVersion is at least "1.3.0" under JavaScript
string comparison, all other domain fields equal; the SafeTx hash's
domain in TxDetailsClient always includes chainId, for every version. -/
theorem domain_chainId_branching (version : String) (chainId : Nat) (addr : String) :
    ((safeMessageDomain version chainId addr).chainId = some chainId
        ↔ includeChainId version = true)
    ∧ (safeMessageDomain version chainId addr).verifyingContract = addr
    ∧ (txDetailsDomain chainId addr).chainId = some chainId
    ∧ ∀ (tx : EthSafeTransaction) (info : SafeInfo),
        computeTxEip712Data tx info chainId addr
          = computeTxEip712Data tx { info with version := version } chainId addr := by
  refine ⟨?_, ?_, rfl, fun tx info => rfl⟩
  · by_cases h : includeChainId version <;> simp [safeMessageDomain, h]
  · by_cases h : includeChainId version <;> simp [safeMessageDomain, h]

/-! ## C7: the SafeMessage wraps an inner hash (double hashing) -/

/-- C7: for every signing method, the value placed in the SafeMessage
struct's single message field is itself already a hash — the EIP-191
personal-message hash of the literal request message for
personal_sign/eth_sign, the EIP-712 hash of the supplied typed data for
typed-data signing — and the SafeMessage digest is the EIP-712 digest
computed over that inner hash, never over the raw message. -/
theorem safeMessage_double_hashing (m a : String) (td : TypedData)
    (info : SafeInfo) (chainId : Nat) (addr : String) :
    safeMessageInner (.personalSign m a) = some (ethersHashMessage m)
    ∧ safeMessageInner (.ethSign a m) = some (ethersHashMessage m)
    ∧ safeMessageInner (.ethSignTypedData a td) = some (hashTypedData td)
    ∧ safeMessageInner (.ethSignTypedDataV4 a td) = some (hashTypedData td)
    ∧ safeMessageInner (.unknownMethod m) = none
    ∧ (∀ req : WcSignRequest,
        (computeSafeMessageEip712Data req info chainId addr).map SafeMessageEip712Data.safeMessage
          = safeMessageInner req)
    ∧ (∀ req : WcSignRequest,
        (computeSafeMessageEip712Data req info chainId addr).map SafeMessageEip712Data.eip712Hash
          = (safeMessageInner req).map fun inner =>
              eip712Digest (hashDomain (safeMessageDomain info.version chainId addr))
                (hashSafeMessageStruct inner)) := by
  refine ⟨rfl, rfl, rfl, rfl, rfl, ?_, ?_⟩ <;>
    intro req <;> cases req <;> rfl

/-! ## Map helper lemmas -/

/-- Every value of `mapSet m k v` is a value of `m` or the inserted `v`. -/
theorem mem_mapValues_mapSet (m : List (String × EthSafeSignature)) (k : String)
    (v sig : EthSafeSignature) (h : sig ∈ mapValues (mapSet m k v)) :
    sig ∈ mapValues m ∨ sig = v := by
  unfold mapSet at h
  by_cases hk : mapHas m k
  · simp only [hk, if_true, mapValues, List.map_map, List.mem_map] at h
    obtain ⟨e, he, hsig⟩ := h
    simp only [Function.comp_apply] at hsig
    by_cases hek : e.1 == k
    · simp only [hek, if_true] at hsig
      right
      exact hsig.symm
    · simp only [hek, if_false] at hsig
      left
      exact List.mem_map.mpr ⟨e, he, hsig⟩
  · rw [if_neg (by simp [hk])] at h
    simpa [mapValues] using h

/-! ## C3: manual Add Signature performs no recovery validation -/

/-- C3: evaluation of `handleAddSignature` at an arbitrary, cryptographically
unverifiable input — claimed signer `0x1111...1111` with signature bytes
`0xdeadbeef` that no recovery could tie to it or to any digest — shows the
flow accepts and records it after shape checks alone: no `InvalidSignature`
failure and no recovery against the transaction digest occurs. -/
theorem manual_signature_accepted_without_recovery :
    handleAddSignature demoTx "0x1111111111111111111111111111111111111111" "0xdeadbeef"
      = Except.ok (addSignature demoTx
          { signer := "0x1111111111111111111111111111111111111111",
            data := "0xdeadbeef", isContractSignature := false }) := by
  rfl

/-! ## C10: the manual flow can only record non-contract signatures -/

/-- C10: whenever the manual Add Signature flow succeeds, the result is
exactly the input transaction with `EthSafeSignature(signer, data, false)`
added, and every signature of the result either was already recorded or
carries `isContractSignature = false`. -/
theorem manual_add_never_contract_signature (tx : EthSafeTransaction)
    (sa sd : String) (tx₂ : EthSafeTransaction)
    (h : handleAddSignature tx sa sd = Except.ok tx₂) :
    tx₂ = addSignature tx { signer := sa, data := sd, isContractSignature := false }
    ∧ ∀ sig ∈ mapValues tx₂.signatures,
        sig ∈ mapValues tx.signatures ∨ sig.isContractSignature = false := by
  unfold handleAddSignature at h
  split_ifs at h
  injection h with hEq
  subst hEq
  refine ⟨rfl, ?_⟩
  intro sig hsig
  unfold addSignature at hsig
  rcases mem_mapValues_mapSet _ _ _ _ hsig with hmem | heq
  · exact Or.inl hmem
  · right
    rw [heq]

/-- C10 witness: the manual flow at concrete inputs records the signature
with the contract flag off. -/
theorem manual_add_never_contract_signature_witness :
    handleAddSignature demoTx "0x1111111111111111111111111111111111111111" "0xdeadbeef"
      = Except.ok (addSignature demoTx
          { signer := "0x1111111111111111111111111111111111111111",
            data := "0xdeadbeef", isContractSignature := false })
    ∧ ∀ sig ∈ mapValues (addSignature demoTx
          { signer := "0x1111111111111111111111111111111111111111",
            data := "0xdeadbeef", isContractSignature := false }).signatures,
        sig ∈ mapValues demoTx.signatures ∨ sig.isContractSignature = false :=
  ⟨rfl, (manual_add_never_contract_signature demoTx
    "0x1111111111111111111111111111111111111111" "0xdeadbeef" _ rfl).2⟩

/-! ## C4: wire forms on import and export -/

/-- C4 counterexample: the per-transaction export path emits the single
`{ tx: ... }` envelope, not the batch form, so it is not the case that
only the batch form is ever emitted on export. -/
theorem export_single_emits_single_form :
    WireFile.isBatch (handleExportSingle demoTxSigned) = false
    ∧ handleExportSingle demoTxSigned
        = WireFile.single { data := demoTxData, signatures := exportSignatures demoTxSigned.signatures } := by
  exact ⟨rfl, rfl⟩

/-- C4 (amended): on import both the single form and the batch form are
accepted and decoded; on export the dashboard bulk export emits the batch
form, while the per-transaction export and the share link emit the single
`{ tx: ... }` form. -/
theorem import_both_forms_export_split (t : WireTransaction)
    (ts : List WireTransaction) (tx : EthSafeTransaction) :
    decodeWireFile (.single t) = [t]
    ∧ decodeWireFile (.batch ts) = ts
    ∧ (dashboardExportTxs ts).isBatch = true
    ∧ (handleExportSingle tx).isBatch = false
    ∧ (handleShareLink tx).isBatch = false := by
  exact ⟨rfl, rfl, rfl, rfl, rfl⟩

/-! ## C5: executability is exactly signatures.size >= threshold -/

/-- C5: the broadcast button is enabled (no broadcast in flight) exactly
when `signatures.size >= threshold`; in particular, with threshold `t`
between 1 and the number of owners, a transaction with `t - 1` signatures
is not executable and one with `t` signatures is. -/
theorem broadcast_threshold_boundary (tx : EthSafeTransaction) (info : SafeInfo) :
    (isExecutable tx info = true ↔ tx.signatures.length ≥ info.threshold)
    ∧ (broadcastDisabled (some tx) (some info) false = false
        ↔ tx.signatures.length ≥ info.threshold)
    ∧ ∀ t, 1 ≤ t → t ≤ info.owners.length →
        ∀ sigs : List (String × EthSafeSignature),
          (sigs.length = t - 1 →
            isExecutable ⟨tx.data, sigs⟩ { info with threshold := t } = false)
          ∧ (sigs.length = t →
            isExecutable ⟨tx.data, sigs⟩ { info with threshold := t } = true) := by
  refine ⟨by simp [isExecutable], by simp [broadcastDisabled], ?_⟩
  intro t ht _ sigs
  constructor
  · intro hlen
    simp only [isExecutable, hlen, decide_eq_false_iff_not, ge_iff_le]
    omega
  · intro hlen
    simp [isExecutable, hlen]

/-- C5 witness: with three owners and threshold 2, one signature is below
the boundary and two signatures reach it. -/
theorem broadcast_threshold_boundary_witness :
    (1 ≤ 2 ∧ 2 ≤ demoInfo.owners.length)
    ∧ isExecutable ⟨demoTxData, [(jsToLower demoSigA.signer, demoSigA)]⟩
        { demoInfo with threshold := 2 } = false
    ∧ isExecutable ⟨demoTxData, demoTxSigned.signatures⟩
        { demoInfo with threshold := 2 } = true := by
  refine ⟨⟨by decide, by decide⟩, ?_, ?_⟩
  · exact ((broadcast_threshold_boundary demoTx demoInfo).2.2 2 (by decide) (by decide)
      [(jsToLower demoSigA.signer, demoSigA)]).1 rfl
  · exact ((broadcast_threshold_boundary demoTx demoInfo).2.2 2 (by decide) (by decide)
      demoTxSigned.signatures).2 rfl

/-! ## C8: wire signatures carry exactly three fields, in insertion order -/

/-- C8: both export paths encode the signature list by a per-element
projection to `{signer, data, isContractSignature}` in Map insertion
order — the i-th wire signature is the projection of the i-th stored
signature, the length is unchanged, and a concrete two-signature
transaction whose signers are not in address order keeps its insertion
order on the wire. -/
theorem export_signatures_fields_and_order (tx : EthSafeTransaction)
    (sigs : List (String × EthSafeSignature)) :
    handleExportSingle tx
        = WireFile.single { data := tx.data, signatures := exportSignatures tx.signatures }
    ∧ handleShareLink tx
        = WireFile.single { data := tx.data, signatures := exportSignatures tx.signatures }
    ∧ (exportSignatures sigs).length = sigs.length
    ∧ (∀ i : Nat, (exportSignatures sigs)[i]? = ((mapValues sigs)[i]?).map
        fun sig => { signer := sig.signer, data := sig.data,
                     isContractSignature := sig.isContractSignature })
    ∧ exportSignatures demoTxSigned.signatures
        = [{ signer := demoSigA.signer, data := demoSigA.data, isContractSignature := false },
           { signer := demoSigB.signer, data := demoSigB.data, isContractSignature := false }] := by
  refine ⟨rfl, rfl, by simp [exportSignatures, mapValues], ?_, rfl⟩
  intro i
  simp [exportSignatures, List.getElem?_map]

/-! ## C9: hasSigned compares addresses case-insensitively -/

/-- C9: provided the signatures Map is keyed by the lower-cased signer
address (protocol-kit's `addSignature` invariant), `hasSignedThisTx`
returns true exactly when some recorded signature's signer equals the
queried address after lower-casing both sides; the signer lookup of
`handleShareSignature` satisfies the same characterization with no
assumption at all. -/
theorem hasSigned_case_insensitive (tx : EthSafeTransaction) (addr : String)
    (hkeys : ∀ e ∈ tx.signatures, e.1 = jsToLower e.2.signer) :
    (hasSignedThisTx tx addr = true
        ↔ ∃ sig ∈ mapValues tx.signatures, jsToLower sig.signer = jsToLower addr)
    ∧ ((findUserSignature tx addr).isSome = true
        ↔ ∃ sig ∈ mapValues tx.signatures, jsToLower sig.signer = jsToLower addr) := by
  constructor
  · unfold hasSignedThisTx mapHas
    rw [List.any_eq_true]
    constructor
    · rintro ⟨e, he, hbeq⟩
      refine ⟨e.2, List.mem_map_of_mem Prod.snd he, ?_⟩
      rw [← hkeys e he]
      exact eq_of_beq hbeq
    · rintro ⟨sig, hsig, heq⟩
      rcases List.mem_map.mp hsig with ⟨e, he, hesig⟩
      refine ⟨e, he, ?_⟩
      rw [hkeys e he, hesig, heq]
      exact beq_self_eq_true _
  · unfold findUserSignature
    rw [List.find?_isSome]
    constructor
    · rintro ⟨sig, hsig, hbeq⟩
      exact ⟨sig, hsig, eq_of_beq hbeq⟩
    · rintro ⟨sig, hsig, heq⟩
      exact ⟨sig, hsig, beq_of_eq heq⟩

/-- C9 witness: a checksummed query address matches the lower-case-keyed
signature of the same signer. -/
theorem hasSigned_case_insensitive_witness :
    (∀ e ∈ demoTxSigned.signatures, e.1 = jsToLower e.2.signer)
    ∧ (hasSignedThisTx demoTxSigned "0xf39fd6e51aad88f6f4ce6ab8827279cfffb92266" = true
        ↔ ∃ sig ∈ mapValues demoTxSigned.signatures,
            jsToLower sig.signer = jsToLower "0xf39fd6e51aad88f6f4ce6ab8827279cfffb92266") := by
  refine ⟨by decide, ?_⟩
  exact (hasSigned_case_insensitive demoTxSigned
    "0xf39fd6e51aad88f6f4ce6ab8827279cfffb92266" (by decide)).1

/-! ## C6: failed broadcasts mutate nothing and are never auto-retried -/

/-- C6: no broadcast outcome ever changes the pending set or the loaded
transaction (so a failed broadcast leaves the transaction pending with
all its signatures); the failure branch makes the modal's success path
unreachable; exactly one broadcaster outcome is consumed per call (no
auto-retry); and removal from the pending set happens only via the modal
success action, which a successful broadcast with a transaction hash
enables. -/
theorem broadcast_failure_atomicity (s : TxDetailsState) (tx : EthSafeTransaction)
    (e h : String) (hTx : s.safeTx = some tx) (hne : h ≠ "") :
    (∀ o : BroadcastOutcome, (handleBroadcast o s).pending = s.pending
        ∧ (handleBroadcast o s).safeTx = some tx)
    ∧ modalSuccessAvailable (handleBroadcast (.failure e) s) = false
    ∧ (∀ rest, handleBroadcastSeq (BroadcastOutcome.failure e :: rest) s
        = (handleBroadcast (.failure e) s, rest))
    ∧ modalSuccessAvailable (handleBroadcast (.success h) s) = true
    ∧ (modalOnSuccess (handleBroadcast (.success h) s)).pending
        = s.pending.filter (fun t => !(t == tx)) := by
  have hbeq : (h == "") = false := by
    exact beq_eq_false_iff_ne.mpr hne
  refine ⟨?_, ?_, ?_, ?_, ?_⟩
  · intro o
    cases o <;> simp [handleBroadcast, hTx]
  · simp [handleBroadcast, hTx, modalSuccessAvailable]
  · intro rest
    simp [handleBroadcastSeq, hTx]
  · simp [handleBroadcast, hTx, modalSuccessAvailable, hbeq]
  · simp [handleBroadcast, modalOnSuccess, hTx, hbeq]

/-- C6 witness: a concrete in-flight state where the failure branch
preserves the pending transaction and only the success branch removes it. -/
theorem broadcast_failure_atomicity_witness :
    (TxDetailsState.mk [demoTxSigned] (some demoTxSigned) none none false true).safeTx
        = some demoTxSigned
    ∧ ("0xdeadbeef" ≠ "")
    ∧ (handleBroadcast (.failure "network down")
        (TxDetailsState.mk [demoTxSigned] (some demoTxSigned) none none false true)).pending
        = [demoTxSigned]
    ∧ modalSuccessAvailable (handleBroadcast (.failure "network down")
        (TxDetailsState.mk [demoTxSigned] (some demoTxSigned) none none false true)) = false := by
  refine ⟨rfl, by decide, ?_, ?_⟩
  · exact ((broadcast_failure_atomicity
      (TxDetailsState.mk [demoTxSigned] (some demoTxSigned) none none false true)
      demoTxSigned "network down" "0xdeadbeef" rfl (by decide)).1 (.failure "network down")).1
  · exact (broadcast_failure_atomicity
      (TxDetailsState.mk [demoTxSigned] (some demoTxSigned) none none false true)
      demoTxSigned "network down" "0xdeadbeef" rfl (by decide)).2.1

end LocalSafe
